import Mathlib

/-!
Shallow embedding of the WhatsApp template sender form
(`src/pages/Index.tsx`): the validation schema, the recipient-phone input
sanitizer, the outbound payload construction, and the `onSubmit` submission
flow, modelled as a linear trace of state-write events applied to the
component's UI state.
-/

/-- A parsed JSON value, the result of `response.json()`.  Numbers are
modelled as integers: no claim in scope depends on non-integral numeric
values, and JSON numbers carrying fractional parts play no role in the
`message`-field handling this development reasons about. -/
inductive Json where
  | null : Json
  | bool (b : Bool) : Json
  | num (n : Int) : Json
  | str (s : String) : Json
  | arr (elems : List Json) : Json
  | obj (fields : List (String × Json)) : Json

/-- JavaScript truthiness of a JSON value, as tested by `data.message || …`:
`null`, `false`, `0` and `""` are falsy, every other JSON value is truthy. -/
def jsTruthy : Json → Bool
  | Json.null => false
  | Json.bool b => b
  | Json.num n => n != 0
  | Json.str s => s != ""
  | Json.arr _ => true
  | Json.obj _ => true

mutual

/-- JavaScript `String(v)` conversion of a JSON value, as performed by the
`Error` constructor on a non-string argument: `new Error(x).message` is
`String(x)`. -/
def jsToString : Json → String
  | Json.null => "null"
  | Json.bool b => cond b "true" "false"
  | Json.num n => toString n
  | Json.str s => s
  | Json.obj _ => "[object Object]"
  | Json.arr elems => jsArrToString elems

/-- JavaScript `Array.prototype.toString`: elements joined with commas, with `null`
rendered as the empty string. -/
def jsArrToString : List Json → String
  | [] => ""
  | [j] => jsElemToString j
  | j :: rest => jsElemToString j ++ "," ++ jsArrToString rest

def jsElemToString : Json → String
  | Json.null => ""
  | j => jsToString j

end

/-- Property access `data.message` on a parsed JSON value.  `JSON.parse`
never produces duplicate keys in an object, so first-match lookup agrees
with JavaScript property access; on non-object values the access yields
`undefined`, modelled as `none`. -/
def lookupMessage : List (String × Json) → Option Json
  | [] => none
  | (k, v) :: rest => if k = "message" then some v else lookupMessage rest

def messageField : Json → Option Json
  | Json.obj fields => lookupMessage fields
  | _ => none

/-- The three form fields (`FormValues = z.infer<typeof formSchema>`). -/
structure FormValues where
  template : String
  phoneNumberId : String
  recipientPhone : String
deriving DecidableEq

/-- The `template.language` object of the outbound payload. -/
structure TemplateLanguage where
  code : String
deriving DecidableEq

/-- The `template` object of the outbound payload. -/
structure TemplateField where
  name : String
  language : TemplateLanguage
deriving DecidableEq

/-- The `debug` object of the outbound payload. -/
structure DebugField where
  ui_origin : String
  sent_at : String
deriving DecidableEq

/-- The outbound JSON payload built inside `onSubmit`. -/
structure OutboundPayload where
  messaging_product : String
  from_phone_number_id : String
  «to» : String
  type : String
  template : TemplateField
  debug : DebugField
deriving DecidableEq

/-- The fixed webhook destination (`WEBHOOK_URL`). -/
def WEBHOOK_URL : String := "https://example-n8n-webhook-url.com/"

/-- The configured template options (`TEMPLATES`), as `(value, label)`. -/
def TEMPLATES : List (String × String) :=
  [("hello_world", "hello_world"),
   ("order_update", "order_update"),
   ("appointment_reminder", "appointment_reminder")]

/-- The configured phone-number-ID options (`PHONE_IDS`), as `(value, label)`. -/
def PHONE_IDS : List (String × String) :=
  [("785310631336841", "785310631336841"),
   ("123456789012345", "123456789012345")]

def templateValues : List String := TEMPLATES.map Prod.fst

def phoneIdValues : List String := PHONE_IDS.map Prod.fst

/-- The recipient-phone `onChange` sanitizer:
`e.target.value.replace(/\D/g, "")` keeps exactly the decimal digits. -/
def sanitizeDigits (s : String) : String :=
  ⟨s.data.filter Char.isDigit⟩

/-- The regex test `/^55\d{10,11}$/.test`, on the character list: the whole
string must be the literal `"55"` followed by 10 or 11 decimal digits. -/
def phoneChars : List Char → Bool
  | '5' :: '5' :: rest =>
      rest.all Char.isDigit && (rest.length == 10 || rest.length == 11)
  | _ => false

def phoneRegexMatch (s : String) : Bool := phoneChars s.data

/-- The `formSchema` rule for `recipientPhone`: `.min(1)` and `.regex(/^55\d{10,11}$/)`. -/
def validRecipientPhone (s : String) : Bool :=
  decide (1 ≤ s.length) && phoneRegexMatch s

/-- The `formSchema` rule for `template`: `.min(1)` only. -/
def validTemplate (s : String) : Bool := decide (1 ≤ s.length)

/-- The `formSchema` rule for `phoneNumberId`: `.min(1)` only. -/
def validPhoneNumberId (s : String) : Bool := decide (1 ≤ s.length)

/-- The whole `formSchema`: a `FormValues` parses iff every field rule holds. -/
def formValid (v : FormValues) : Bool :=
  validTemplate v.template && validPhoneNumberId v.phoneNumberId
    && validRecipientPhone v.recipientPhone

/-- The payload object literal built at the top of `onSubmit`; `now` is the
ISO-8601 string produced by `new Date().toISOString()` at submit time. -/
def buildPayload (values : FormValues) (now : String) : OutboundPayload :=
  { messaging_product := "whatsapp"
    from_phone_number_id := values.phoneNumberId
    «to» := values.recipientPhone
    type := "template"
    template := { name := values.template, language := { code := "en_US" } }
    debug := { ui_origin := "lovable-web-sender", sent_at := now } }

/-- The component's four `useState` cells.  The `webhookResponse` cell is
`useState<WebhookResponse | null>(null)`: it holds a plain JavaScript
value, and its reset value `null` is the very same value as a stored
response body `null` — the program cannot tell the two apart, so the cell
is modelled as a `Json` value whose reset value is `Json.null`.
`sentPayload` and `error` keep `Option` form: the stored payload is always
an object and the stored error always a string, neither ever `null`. -/
structure UIState where
  isSubmitting : Bool
  sentPayload : Option OutboundPayload
  webhookResponse : Json
  error : Option String

/-- A value thrown inside the `try` block: either an `Error` instance with
its `message` string, or any non-`Error` value (whose identity the catch
handler never inspects). -/
inductive Thrown where
  | errorObj (message : String) : Thrown
  | nonError : Thrown
deriving DecidableEq

/-- The catch handler's message selection:
`err instanceof Error ? err.message : "Erro desconhecido ao enviar"`. -/
def catchMessage : Thrown → String
  | Thrown.errorObj m => m
  | Thrown.nonError => "Erro desconhecido ao enviar"

/-- How the one `fetch` + `response.json()` round trip resolves, an input of
the model: the response arrived with a status and a parsed JSON body, or
`fetch` rejected, or `response.json()` rejected. -/
inductive FetchOutcome where
  | response (status : Nat) (body : Json) : FetchOutcome
  | fetchThrows (t : Thrown) : FetchOutcome
  | jsonThrows (t : Thrown) : FetchOutcome

/-- The message of the `TypeError` raised by reading `data.message` when
`data` is `null`.  Its exact wording is engine-specific; the model fixes
the V8 (Chrome/Node) wording. -/
def typeErrorNullMessage : String :=
  "Cannot read properties of null (reading 'message')"

/-- The error text produced on a non-2xx response.  When the parsed body is
the JSON value `null`, evaluating `data.message` itself throws a
`TypeError` (an `Error` instance), caught by the same handler, so the
stored error is that TypeError's message.  Otherwise
`new Error(data.message || ` "Erro: status" `)` is thrown and caught, and
the handler reads back `err.message`: `String(data.message)` when
`data.message` is truthy (primitives and objects box without throwing,
yielding `undefined` when the field is absent), and the
`"Erro: <status>"` fallback otherwise. -/
def errorMessageFor (status : Nat) (body : Json) : String :=
  match body with
  | Json.null => typeErrorNullMessage
  | _ =>
      match messageField body with
      | some m => if jsTruthy m then jsToString m else "Erro: " ++ toString status
      | none => "Erro: " ++ toString status

/-- One observable step of `onSubmit`: a state-cell write, the `fetch`
invocation, or a toast notification. -/
inductive Event where
  | setIsSubmitting (b : Bool) : Event
  | setError (v : Option String) : Event
  | setSentPayload (v : Option OutboundPayload) : Event
  | setWebhookResponse (v : Json) : Event
  | fetchCall (url : String) (payload : OutboundPayload) : Event
  | toastSuccess : Event
  | toastFailure (message : String) : Event

/-- The `onSubmit` body as the ordered list of its observable steps, for a
given fetch outcome.  `response.ok` is status in 200–299.  The `finally`
block contributes the unconditional trailing `setIsSubmitting false`. -/
def onSubmitTrace (values : FormValues) (now : String)
    (outcome : FetchOutcome) : List Event :=
  let payload := buildPayload values now
  [Event.setIsSubmitting true, Event.setError none, Event.setSentPayload none,
   Event.setWebhookResponse Json.null, Event.setSentPayload (some payload),
   Event.fetchCall WEBHOOK_URL payload]
  ++ (match outcome with
      | FetchOutcome.response status body =>
          if 200 ≤ status ∧ status ≤ 299 then
            [Event.setWebhookResponse body, Event.toastSuccess]
          else
            [Event.setError (some (errorMessageFor status body)),
             Event.toastFailure (errorMessageFor status body)]
      | FetchOutcome.fetchThrows t =>
          [Event.setError (some (catchMessage t)),
           Event.toastFailure (catchMessage t)]
      | FetchOutcome.jsonThrows t =>
          [Event.setError (some (catchMessage t)),
           Event.toastFailure (catchMessage t)])
  ++ [Event.setIsSubmitting false]

/-- Effect of one event on the UI state; the fetch invocation and the toasts
do not touch the four state cells. -/
def applyEvent (s : UIState) : Event → UIState
  | Event.setIsSubmitting b => { s with isSubmitting := b }
  | Event.setError v => { s with error := v }
  | Event.setSentPayload v => { s with sentPayload := v }
  | Event.setWebhookResponse v => { s with webhookResponse := v }
  | Event.fetchCall _ _ => s
  | Event.toastSuccess => s
  | Event.toastFailure _ => s

def runTrace (init : UIState) (events : List Event) : UIState :=
  events.foldl applyEvent init

/-- The UI state after a completed submission attempt. -/
def finalState (init : UIState) (values : FormValues) (now : String)
    (outcome : FetchOutcome) : UIState :=
  runTrace init (onSubmitTrace values now outcome)

/-- Model of `form.handleSubmit(onSubmit)`: the form-state container runs the
resolver first and invokes `onSubmit` only when `formSchema` accepts the
current values, so a failing validation produces no events at all. -/
def submitFlow (v : FormValues) (now : String)
    (outcome : FetchOutcome) : List Event :=
  if formValid v then onSubmitTrace v now outcome else []

/-- A concrete idle UI state, used to instantiate the theorems below. -/
def initState : UIState :=
  { isSubmitting := false, sentPayload := none,
    webhookResponse := Json.null, error := none }

/-- Concrete form values, the spec's Scenario A inputs. -/
def sampleValues : FormValues :=
  { template := "hello_world", phoneNumberId := "785310631336841",
    recipientPhone := "5599999999999" }

/-- A concrete ISO-8601 submit timestamp. -/
def sampleTime : String := "2024-01-01T00:00:00.000Z"

/-- Helper: the final UI state on a 2xx response. -/
theorem finalState_response_ok (init : UIState) (values : FormValues)
    (now : String) (status : Nat) (body : Json)
    (h : 200 ≤ status ∧ status ≤ 299) :
    finalState init values now (FetchOutcome.response status body) =
      { isSubmitting := false, sentPayload := some (buildPayload values now),
        webhookResponse := body, error := none } := by
  simp [finalState, runTrace, onSubmitTrace, applyEvent, h]

/-- Helper: the final UI state on a non-2xx response. -/
theorem finalState_response_fail (init : UIState) (values : FormValues)
    (now : String) (status : Nat) (body : Json)
    (h : ¬ (200 ≤ status ∧ status ≤ 299)) :
    finalState init values now (FetchOutcome.response status body) =
      { isSubmitting := false, sentPayload := some (buildPayload values now),
        webhookResponse := Json.null,
        error := some (errorMessageFor status body) } := by
  simp [finalState, runTrace, onSubmitTrace, applyEvent, h]

/-- Helper: the final UI state when `fetch` rejects. -/
theorem finalState_fetchThrows (init : UIState) (values : FormValues)
    (now : String) (t : Thrown) :
    finalState init values now (FetchOutcome.fetchThrows t) =
      { isSubmitting := false, sentPayload := some (buildPayload values now),
        webhookResponse := Json.null, error := some (catchMessage t) } := by
  simp [finalState, runTrace, onSubmitTrace, applyEvent]

/-- Helper: the final UI state when `response.json()` rejects. -/
theorem finalState_jsonThrows (init : UIState) (values : FormValues)
    (now : String) (t : Thrown) :
    finalState init values now (FetchOutcome.jsonThrows t) =
      { isSubmitting := false, sentPayload := some (buildPayload values now),
        webhookResponse := Json.null, error := some (catchMessage t) } := by
  simp [finalState, runTrace, onSubmitTrace, applyEvent]

/-- C1: for every valid submission with form values and submit timestamp,
the constructed outbound payload is exactly the record
`{ messaging_product := "whatsapp", from_phone_number_id := phoneNumberId,
to := recipientPhone, type := "template", template := { name := template,
language := { code := "en_US" } }, debug := { ui_origin :=
"lovable-web-sender", sent_at := timestamp } }`, and whatever the fetch
outcome, this payload ends up stored as `sentPayload`. -/
theorem C1_payload_built_and_stored (values : FormValues) (ts : String)
    (init : UIState) (outcome : FetchOutcome) :
    buildPayload values ts =
      { messaging_product := "whatsapp"
        from_phone_number_id := values.phoneNumberId
        «to» := values.recipientPhone
        type := "template"
        template := { name := values.template, language := { code := "en_US" } }
        debug := { ui_origin := "lovable-web-sender", sent_at := ts } }
    ∧ (finalState init values ts outcome).sentPayload
        = some (buildPayload values ts) := by
  refine ⟨rfl, ?_⟩
  cases outcome with
  | response status body =>
      by_cases h : 200 ≤ status ∧ status ≤ 299
      · rw [finalState_response_ok init values ts status body h]
      · rw [finalState_response_fail init values ts status body h]
  | fetchThrows t => rw [finalState_fetchThrows]
  | jsonThrows t => rw [finalState_jsonThrows]

/-- C2: the recipient-phone sanitizer leaves only digits, and a stored
value passes the `recipientPhone` validation iff it is the literal `"55"`
followed by 10 or 11 decimal digits (such a value is in particular
non-empty). -/
theorem C2_phone_sanitized_and_validated (s : String) :
    ((sanitizeDigits s).data.all Char.isDigit = true)
    ∧ (validRecipientPhone s = true ↔
        ∃ rest : List Char, s.data = '5' :: '5' :: rest
          ∧ rest.all Char.isDigit = true
          ∧ (rest.length = 10 ∨ rest.length = 11)) := by
  constructor
  · simp only [sanitizeDigits, List.all_eq_true]
    exact fun a ha => List.of_mem_filter ha
  · constructor
    · intro h
      rw [validRecipientPhone, Bool.and_eq_true] at h
      obtain ⟨_, h2⟩ := h
      rw [phoneRegexMatch] at h2
      unfold phoneChars at h2
      split at h2
      · next rest heq =>
          rw [Bool.and_eq_true, Bool.or_eq_true, beq_iff_eq, beq_iff_eq] at h2
          exact ⟨rest, heq, h2.1, h2.2⟩
      · exact absurd h2 (by simp)
    · rintro ⟨rest, hdata, hdig, hlen⟩
      rw [validRecipientPhone, Bool.and_eq_true]
      constructor
      · have : s.length = s.data.length := rfl
        rw [this, hdata]
        simp
      · rw [phoneRegexMatch, hdata]
        have hred : phoneChars ('5' :: '5' :: rest)
            = (rest.all Char.isDigit && (rest.length == 10 || rest.length == 11)) := rfl
        rw [hred, Bool.and_eq_true, Bool.or_eq_true, beq_iff_eq, beq_iff_eq]
        exact ⟨hdig, hlen⟩

/-- Helper: the zod check `1 ≤ s.length` holds iff `s` is non-empty. -/
theorem one_le_length_iff (s : String) : 1 ≤ s.length ↔ s ≠ "" := by
  rcases s with ⟨l⟩
  have hmk : ("" : String) = ⟨[]⟩ := rfl
  have hlen : (String.mk l).length = l.length := rfl
  rw [hmk, hlen]
  constructor
  · intro h he
    cases he
    simp at h
  · intro h
    cases l with
    | nil => exact absurd rfl h
    | cons c t => simp

/-- C3 counterexample: a template value that is not among the configured
`TEMPLATES` values nevertheless passes `formSchema`, and submitting with it
does issue the network call. -/
theorem C3_counterexample :
    formValid { template := "definitely_not_configured",
                phoneNumberId := "785310631336841",
                recipientPhone := "5599999999999" } = true
    ∧ "definitely_not_configured" ∉ templateValues
    ∧ Event.fetchCall WEBHOOK_URL
        (buildPayload { template := "definitely_not_configured",
                        phoneNumberId := "785310631336841",
                        recipientPhone := "5599999999999" } "2024-01-01T00:00:00.000Z")
        ∈ submitFlow { template := "definitely_not_configured",
                       phoneNumberId := "785310631336841",
                       recipientPhone := "5599999999999" } "2024-01-01T00:00:00.000Z"
            (FetchOutcome.fetchThrows Thrown.nonError) := by
  refine ⟨by decide, by decide, ?_⟩
  have hv : formValid { template := "definitely_not_configured",
                        phoneNumberId := "785310631336841",
                        recipientPhone := "5599999999999" } = true := by decide
  rw [submitFlow, if_pos hv]
  simp [onSubmitTrace]

/-- C3 amended: `formSchema` only requires the `template` and
`phoneNumberId` selections to be non-empty (plus the recipient-phone rule);
membership in the configured lists is not part of validation.  A failing
validation still blocks submission: no fetch event is ever emitted. -/
theorem C3_validation_gates_submission (v : FormValues) :
    (formValid v = true ↔
      v.template ≠ "" ∧ v.phoneNumberId ≠ ""
        ∧ validRecipientPhone v.recipientPhone = true)
    ∧ (formValid v = false →
        ∀ (now : String) (outcome : FetchOutcome) (u : String)
          (p : OutboundPayload), Event.fetchCall u p ∉ submitFlow v now outcome) := by
  constructor
  · rw [formValid, Bool.and_eq_true, Bool.and_eq_true, validTemplate,
      validPhoneNumberId, decide_eq_true_eq, decide_eq_true_eq,
      one_le_length_iff, one_le_length_iff]
    tauto
  · intro h now outcome u p
    rw [submitFlow, if_neg (by simp [h])]
    exact List.not_mem_nil _

/-- C3 witness: with an empty template selection validation fails and the
submission flow emits no fetch call. -/
theorem C3_validation_gates_submission_witness :
    formValid { template := "", phoneNumberId := "785310631336841",
                recipientPhone := "5599999999999" } = false
    ∧ Event.fetchCall WEBHOOK_URL
        (buildPayload { template := "", phoneNumberId := "785310631336841",
                        recipientPhone := "5599999999999" } "2024-01-01T00:00:00.000Z")
        ∉ submitFlow { template := "", phoneNumberId := "785310631336841",
                       recipientPhone := "5599999999999" } "2024-01-01T00:00:00.000Z"
            (FetchOutcome.fetchThrows Thrown.nonError) :=
  ⟨by decide,
   (C3_validation_gates_submission
      { template := "", phoneNumberId := "785310631336841",
        recipientPhone := "5599999999999" }).2 (by decide)
      "2024-01-01T00:00:00.000Z" (FetchOutcome.fetchThrows Thrown.nonError)
      WEBHOOK_URL _⟩

/-- C4 counterexample: on a 500 response whose body has a `message` field
that is present but equal to the empty string, the resulting error is the
`"Erro: 500"` fallback, not that field's (empty) value. -/
theorem C4_counterexample :
    messageField (Json.obj [("message", Json.str "")])
      = some (Json.str "")
    ∧ (finalState initState sampleValues sampleTime
         (FetchOutcome.response 500 (Json.obj [("message", Json.str "")]))).error
        = some "Erro: 500"
    ∧ (finalState initState sampleValues sampleTime
         (FetchOutcome.response 500 (Json.obj [("message", Json.str "")]))).error
        ≠ some "" := by
  refine ⟨rfl, by decide, by decide⟩

/-- Helper: a present `message` field forces a non-null body. -/
theorem messageField_some_ne_null (body m : Json)
    (hm : messageField body = some m) : body ≠ Json.null := by
  intro h
  subst h
  simp [messageField] at hm

/-- Helper: on a non-null body the error text is the truthiness selection
over the `message` field. -/
theorem errorMessageFor_ne_null (status : Nat) (body : Json)
    (hb : body ≠ Json.null) :
    errorMessageFor status body
      = match messageField body with
        | some m =>
            if jsTruthy m then jsToString m else "Erro: " ++ toString status
        | none => "Erro: " ++ toString status := by
  cases body with
  | null => exact absurd rfl hb
  | bool b => rfl
  | num n => rfl
  | str s => rfl
  | arr elems => rfl
  | obj fields => rfl

/-- C4 amended: on a completed attempt with a non-2xx status and a parsed
JSON body, `webhookResponse` stays at its reset null value and
`sentPayload` stays populated; when the body is the JSON value `null`,
reading its `message` field throws a `TypeError` and the error is that
TypeError's message (engine-specific wording, modelled as V8's); otherwise
the error is the stringified `message` field when that field is present
and truthy, and the generic `"Erro: <status>"` string when the field is
absent or falsy. -/
theorem C4_http_failure_error_selection (init : UIState) (values : FormValues)
    (now : String) (status : Nat) (body : Json)
    (h : ¬ (200 ≤ status ∧ status ≤ 299)) :
    (finalState init values now (FetchOutcome.response status body)).webhookResponse
        = Json.null
    ∧ (finalState init values now (FetchOutcome.response status body)).sentPayload
        = some (buildPayload values now)
    ∧ (body = Json.null →
        (finalState init values now (FetchOutcome.response status body)).error
          = some typeErrorNullMessage)
    ∧ (∀ m, messageField body = some m → jsTruthy m = true →
        (finalState init values now (FetchOutcome.response status body)).error
          = some (jsToString m))
    ∧ (body ≠ Json.null → messageField body = none →
        (finalState init values now (FetchOutcome.response status body)).error
          = some ("Erro: " ++ toString status))
    ∧ (∀ m, messageField body = some m → jsTruthy m = false →
        (finalState init values now (FetchOutcome.response status body)).error
          = some ("Erro: " ++ toString status)) := by
  rw [finalState_response_fail init values now status body h]
  refine ⟨rfl, rfl, ?_, ?_, ?_, ?_⟩
  · rintro rfl
    rfl
  · intro m hm ht
    rw [errorMessageFor_ne_null status body (messageField_some_ne_null body m hm),
      hm]
    simp [ht]
  · intro hb hm
    rw [errorMessageFor_ne_null status body hb, hm]
  · intro m hm ht
    rw [errorMessageFor_ne_null status body (messageField_some_ne_null body m hm),
      hm]
    simp [ht]

/-- C4 witness: a 500 response with body `{"message":"internal failure"}`
yields that message as the error with `webhookResponse` still null, and a
500 response with body `null` yields the TypeError's message. -/
theorem C4_http_failure_error_selection_witness :
    (finalState initState sampleValues sampleTime
       (FetchOutcome.response 500 (Json.obj [("message", Json.str "internal failure")]))).error
      = some "internal failure"
    ∧ (finalState initState sampleValues sampleTime
        (FetchOutcome.response 500 (Json.obj [("message", Json.str "internal failure")]))).webhookResponse
      = Json.null
    ∧ (finalState initState sampleValues sampleTime
        (FetchOutcome.response 500 Json.null)).error
      = some "Cannot read properties of null (reading 'message')" :=
  ⟨by
    have h1 := (C4_http_failure_error_selection initState sampleValues sampleTime 500
      (Json.obj [("message", Json.str "internal failure")]) (by decide)).2.2.2.1
      (Json.str "internal failure") rfl rfl
    simpa [jsToString] using h1,
   (C4_http_failure_error_selection initState sampleValues sampleTime 500
      (Json.obj [("message", Json.str "internal failure")]) (by decide)).1,
   (C4_http_failure_error_selection initState sampleValues sampleTime 500
      Json.null (by decide)).2.2.1 rfl⟩

/-- C5: on a completed attempt with a 2xx status and a parsed JSON body
`B` of any shape, `webhookResponse` is set to `B` unvalidated and `error`
remains null. -/
theorem C5_http_success_stores_body (init : UIState) (values : FormValues)
    (now : String) (status : Nat) (body : Json)
    (h1 : 200 ≤ status) (h2 : status ≤ 299) :
    (finalState init values now (FetchOutcome.response status body)).webhookResponse
        = body
    ∧ (finalState init values now (FetchOutcome.response status body)).error
        = none := by
  rw [finalState_response_ok init values now status body ⟨h1, h2⟩]
  exact ⟨rfl, rfl⟩

/-- C5 witness: Scenario A, a 200 response with body `{"message":"ok"}`. -/
theorem C5_http_success_stores_body_witness :
    (200 ≤ 200 ∧ 200 ≤ 299)
    ∧ (finalState initState sampleValues sampleTime
        (FetchOutcome.response 200 (Json.obj [("message", Json.str "ok")]))).webhookResponse
      = Json.obj [("message", Json.str "ok")]
    ∧ (finalState initState sampleValues sampleTime
        (FetchOutcome.response 200 (Json.obj [("message", Json.str "ok")]))).error
      = none :=
  ⟨⟨by decide, by decide⟩,
   C5_http_success_stores_body initState sampleValues sampleTime 200
     (Json.obj [("message", Json.str "ok")]) (by decide) (by decide)⟩

/-- C6 counterexample: when the fetch rejects with an `Error` whose
`message` is the empty string, the stored error is that empty string, not
the generic `"Erro desconhecido ao enviar"`. -/
theorem C6_counterexample :
    (finalState initState sampleValues sampleTime
       (FetchOutcome.fetchThrows (Thrown.errorObj ""))).error = some ""
    ∧ (finalState initState sampleValues sampleTime
        (FetchOutcome.fetchThrows (Thrown.errorObj ""))).error
      ≠ some "Erro desconhecido ao enviar" := by
  refine ⟨by decide, by decide⟩

/-- C6 amended: when the network call or the JSON parsing throws, the
error is the thrown value's `message` whenever the thrown value is an
`Error` instance (even an empty message), and the generic
`"Erro desconhecido ao enviar"` exactly when a non-`Error` value is thrown;
every such attempt still completes with the finalizer resetting
`isSubmitting`. -/
theorem C6_thrown_error_handling (init : UIState) (values : FormValues)
    (now : String) (t : Thrown) :
    ((finalState init values now (FetchOutcome.fetchThrows t)).error
        = some (catchMessage t))
    ∧ ((finalState init values now (FetchOutcome.jsonThrows t)).error
        = some (catchMessage t))
    ∧ ((finalState init values now (FetchOutcome.fetchThrows t)).isSubmitting
        = false)
    ∧ ((finalState init values now (FetchOutcome.jsonThrows t)).isSubmitting
        = false)
    ∧ (∀ m, t = Thrown.errorObj m → catchMessage t = m)
    ∧ (t = Thrown.nonError → catchMessage t = "Erro desconhecido ao enviar") := by
  rw [finalState_fetchThrows, finalState_jsonThrows]
  refine ⟨rfl, rfl, rfl, rfl, ?_, ?_⟩
  · rintro m rfl
    rfl
  · rintro rfl
    rfl

/-- C6 witness: a thrown connection `Error` with message
`"Failed to fetch"` lands verbatim in `error`. -/
theorem C6_thrown_error_handling_witness :
    (finalState initState sampleValues sampleTime
       (FetchOutcome.fetchThrows (Thrown.errorObj "Failed to fetch"))).error
      = some "Failed to fetch" :=
  (C6_thrown_error_handling initState sampleValues sampleTime
     (Thrown.errorObj "Failed to fetch")).1

/-- C10: on a non-2xx response whose body's `message` field is present but
falsy (empty string, `0`, `false` or `null`), the resulting error is the
generic `"Erro: <status>"` fallback: the selection tests truthiness, not
presence. -/
theorem C10_falsy_message_uses_fallback (init : UIState) (values : FormValues)
    (now : String) (status : Nat) (body : Json) (m : Json)
    (h : ¬ (200 ≤ status ∧ status ≤ 299))
    (hm : messageField body = some m) (hf : jsTruthy m = false) :
    (finalState init values now (FetchOutcome.response status body)).error
      = some ("Erro: " ++ toString status) := by
  rw [finalState_response_fail init values now status body h,
    errorMessageFor_ne_null status body (messageField_some_ne_null body m hm),
    hm]
  simp [hf]

/-- C10 witness: a 404 response with body `{"message":0}` yields
`"Erro: 404"`. -/
theorem C10_falsy_message_uses_fallback_witness :
    (finalState initState sampleValues sampleTime
       (FetchOutcome.response 404 (Json.obj [("message", Json.num 0)]))).error
      = some ("Erro: " ++ toString 404) :=
  C10_falsy_message_uses_fallback initState sampleValues sampleTime 404
    (Json.obj [("message", Json.num 0)]) (Json.num 0) (by decide) rfl rfl

/-- C7: every submission trace starts by setting `isSubmitting := true`,
ends (via the `finally` block) by setting `isSubmitting := false`, touches
`isSubmitting` nowhere in between on any outcome, and the final state
always has `isSubmitting = false`. -/
theorem C7_isSubmitting_lifecycle (values : FormValues) (now : String)
    (outcome : FetchOutcome) :
    (∃ mid : List Event,
      onSubmitTrace values now outcome
        = Event.setIsSubmitting true :: (mid ++ [Event.setIsSubmitting false])
      ∧ ∀ b, Event.setIsSubmitting b ∉ mid)
    ∧ ∀ init : UIState,
        (runTrace init (onSubmitTrace values now outcome)).isSubmitting
          = false := by
  constructor
  · cases outcome with
    | response status body =>
        by_cases h : 200 ≤ status ∧ status ≤ 299
        · refine ⟨[Event.setError none, Event.setSentPayload none,
            Event.setWebhookResponse Json.null,
            Event.setSentPayload (some (buildPayload values now)),
            Event.fetchCall WEBHOOK_URL (buildPayload values now),
            Event.setWebhookResponse body, Event.toastSuccess],
            by simp [onSubmitTrace, h], ?_⟩
          intro b
          simp
        · refine ⟨[Event.setError none, Event.setSentPayload none,
            Event.setWebhookResponse Json.null,
            Event.setSentPayload (some (buildPayload values now)),
            Event.fetchCall WEBHOOK_URL (buildPayload values now),
            Event.setError (some (errorMessageFor status body)),
            Event.toastFailure (errorMessageFor status body)],
            by simp [onSubmitTrace, h], ?_⟩
          intro b
          simp
    | fetchThrows t =>
        refine ⟨[Event.setError none, Event.setSentPayload none,
          Event.setWebhookResponse Json.null,
          Event.setSentPayload (some (buildPayload values now)),
          Event.fetchCall WEBHOOK_URL (buildPayload values now),
          Event.setError (some (catchMessage t)),
          Event.toastFailure (catchMessage t)],
          by simp [onSubmitTrace], ?_⟩
        intro b
        simp
    | jsonThrows t =>
        refine ⟨[Event.setError none, Event.setSentPayload none,
          Event.setWebhookResponse Json.null,
          Event.setSentPayload (some (buildPayload values now)),
          Event.fetchCall WEBHOOK_URL (buildPayload values now),
          Event.setError (some (catchMessage t)),
          Event.toastFailure (catchMessage t)],
          by simp [onSubmitTrace], ?_⟩
        intro b
        simp
  · intro init
    show (finalState init values now outcome).isSubmitting = false
    cases outcome with
    | response status body =>
        by_cases h : 200 ≤ status ∧ status ≤ 299
        · rw [finalState_response_ok init values now status body h]
        · rw [finalState_response_fail init values now status body h]
    | fetchThrows t => rw [finalState_fetchThrows]
    | jsonThrows t => rw [finalState_jsonThrows]

/-- C8: in every submission trace the write of `sentPayload` with the built
payload immediately precedes the fetch invocation, and no fetch happens
before it. -/
theorem C8_payload_committed_before_fetch (values : FormValues) (now : String)
    (outcome : FetchOutcome) :
    ∃ pre post : List Event,
      onSubmitTrace values now outcome
        = pre ++ (Event.setSentPayload (some (buildPayload values now))
            :: Event.fetchCall WEBHOOK_URL (buildPayload values now) :: post)
      ∧ ∀ u p, Event.fetchCall u p ∉ pre := by
  cases outcome with
  | response status body =>
      by_cases h : 200 ≤ status ∧ status ≤ 299
      · exact ⟨[Event.setIsSubmitting true, Event.setError none,
          Event.setSentPayload none, Event.setWebhookResponse Json.null],
          [Event.setWebhookResponse body, Event.toastSuccess,
           Event.setIsSubmitting false],
          by simp [onSubmitTrace, h], fun u p => by simp⟩
      · exact ⟨[Event.setIsSubmitting true, Event.setError none,
          Event.setSentPayload none, Event.setWebhookResponse Json.null],
          [Event.setError (some (errorMessageFor status body)),
           Event.toastFailure (errorMessageFor status body),
           Event.setIsSubmitting false],
          by simp [onSubmitTrace, h], fun u p => by simp⟩
  | fetchThrows t =>
      exact ⟨[Event.setIsSubmitting true, Event.setError none,
        Event.setSentPayload none, Event.setWebhookResponse Json.null],
        [Event.setError (some (catchMessage t)),
         Event.toastFailure (catchMessage t), Event.setIsSubmitting false],
        by simp [onSubmitTrace], fun u p => by simp⟩
  | jsonThrows t =>
      exact ⟨[Event.setIsSubmitting true, Event.setError none,
        Event.setSentPayload none, Event.setWebhookResponse Json.null],
        [Event.setError (some (catchMessage t)),
         Event.toastFailure (catchMessage t), Event.setIsSubmitting false],
        by simp [onSubmitTrace], fun u p => by simp⟩

/-- C9 counterexample: on a 200 response whose parsed body is the JSON
value `null`, the attempt ends with `webhookResponse` equal to the reset
value `null` and with `error` null as well — neither of the two fields is
populated, against the claimed "exactly one". -/
theorem C9_counterexample :
    (finalState initState sampleValues sampleTime
       (FetchOutcome.response 200 Json.null)).webhookResponse = Json.null
    ∧ (finalState initState sampleValues sampleTime
        (FetchOutcome.response 200 Json.null)).error = none
    ∧ initState.webhookResponse = Json.null :=
  ⟨rfl, rfl, rfl⟩

/-- C9 amended: every attempt begins with the four reset writes; at the
pending point (right after the fetch call) `webhookResponse` is null,
`error` is null and `isSubmitting` is true; and at the end of a completed
attempt `webhookResponse` and `error` are never both populated: on a
non-2xx response or a throw exactly `error` is populated, while on a 2xx
response `error` is null and `webhookResponse` holds the parsed body —
indistinguishable from the reset null when that body is itself the JSON
value `null`, in which case neither field is populated. -/
theorem C9_reset_and_outcome_population (values : FormValues) (now : String)
    (outcome : FetchOutcome) (init : UIState) :
    ((onSubmitTrace values now outcome).take 4
        = [Event.setIsSubmitting true, Event.setError none,
           Event.setSentPayload none, Event.setWebhookResponse Json.null])
    ∧ ((runTrace init ((onSubmitTrace values now outcome).take 6)).webhookResponse
          = Json.null
        ∧ (runTrace init ((onSubmitTrace values now outcome).take 6)).error = none
        ∧ (runTrace init ((onSubmitTrace values now outcome).take 6)).isSubmitting
          = true)
    ∧ ¬((finalState init values now outcome).webhookResponse ≠ Json.null
        ∧ (finalState init values now outcome).error ≠ none)
    ∧ (((finalState init values now outcome).error = none
          ∧ ∃ status body, outcome = FetchOutcome.response status body
              ∧ 200 ≤ status ∧ status ≤ 299
              ∧ (finalState init values now outcome).webhookResponse = body)
        ∨ ((finalState init values now outcome).webhookResponse = Json.null
          ∧ (finalState init values now outcome).error ≠ none)) := by
  refine ⟨?_, ?_, ?_, ?_⟩
  · cases outcome with
    | response status body =>
        by_cases h : 200 ≤ status ∧ status ≤ 299 <;>
          simp [onSubmitTrace, h]
    | fetchThrows t => simp [onSubmitTrace]
    | jsonThrows t => simp [onSubmitTrace]
  · cases outcome with
    | response status body =>
        by_cases h : 200 ≤ status ∧ status ≤ 299 <;>
          simp [onSubmitTrace, runTrace, applyEvent, h]
    | fetchThrows t => simp [onSubmitTrace, runTrace, applyEvent]
    | jsonThrows t => simp [onSubmitTrace, runTrace, applyEvent]
  · cases outcome with
    | response status body =>
        by_cases h : 200 ≤ status ∧ status ≤ 299
        · rw [finalState_response_ok init values now status body h]
          rintro ⟨-, he⟩
          exact he rfl
        · rw [finalState_response_fail init values now status body h]
          rintro ⟨hw, -⟩
          exact hw rfl
    | fetchThrows t =>
        rw [finalState_fetchThrows]
        rintro ⟨hw, -⟩
        exact hw rfl
    | jsonThrows t =>
        rw [finalState_jsonThrows]
        rintro ⟨hw, -⟩
        exact hw rfl
  · cases outcome with
    | response status body =>
        by_cases h : 200 ≤ status ∧ status ≤ 299
        · left
          rw [finalState_response_ok init values now status body h]
          exact ⟨rfl, status, body, rfl, h.1, h.2, rfl⟩
        · right
          rw [finalState_response_fail init values now status body h]
          exact ⟨rfl, by simp⟩
    | fetchThrows t =>
        right
        rw [finalState_fetchThrows]
        exact ⟨rfl, by simp⟩
    | jsonThrows t =>
        right
        rw [finalState_jsonThrows]
        exact ⟨rfl, by simp⟩
